import Mathlib

/-!
Verification of the Space Bedrock server launcher scripts.

This file gives a shallow embedding of the two Python launcher variants
(`bedrock-launcher.py`, the multi-mirror variant, and `space-launcher.py`,
the manual-ZIP variant) and proves properties of the embedded code.

External effects (network downloads, the filesystem, spawned processes and
threads) are modelled by explicit environment records that answer each
query the code makes, and by event traces listing each effectful action
the code performs, in the order the code performs it.
-/

set_option autoImplicit false

namespace Launcher

/-- Boolean test that the character list `n` is a prefix of `h`.
Used to model the Python substring operator `in`. -/
def prefixB : List Char → List Char → Bool
  | [], _ => true
  | _ :: _, [] => false
  | a :: as, b :: bs => a == b && prefixB as bs

/-- Boolean test that the character list `n` occurs contiguously inside `h`. -/
def infixB (n : List Char) : List Char → Bool
  | [] => n.isEmpty
  | b :: bs => prefixB n (b :: bs) || infixB n bs

/-- Model of the Python expression `needle in hay` on strings. -/
def strContains (hay needle : String) : Bool :=
  infixB needle.data hay.data

theorem prefixB_iff : ∀ n h : List Char, prefixB n h = true ↔ ∃ t, h = n ++ t
  | [], h => by simp [prefixB]
  | _ :: _, [] => by simp [prefixB]
  | a :: as, b :: bs => by
    simp only [prefixB, Bool.and_eq_true, beq_iff_eq, List.cons_append, List.cons.injEq]
    rw [prefixB_iff as bs]
    constructor
    · rintro ⟨rfl, t, rfl⟩
      exact ⟨t, rfl, rfl⟩
    · rintro ⟨t, rfl, rfl⟩
      exact ⟨rfl, t, rfl⟩

theorem infixB_iff : ∀ (n h : List Char), infixB n h = true ↔ ∃ l r, h = l ++ (n ++ r)
  | n, [] => by
    simp only [infixB, List.isEmpty_iff]
    constructor
    · rintro rfl
      exact ⟨[], [], rfl⟩
    · rintro ⟨l, r, hl⟩
      rcases List.append_eq_nil.mp hl.symm with ⟨rfl, hr⟩
      rcases List.append_eq_nil.mp hr with ⟨rfl, -⟩
      rfl
  | n, b :: bs => by
    simp only [infixB, Bool.or_eq_true]
    rw [prefixB_iff, infixB_iff n bs]
    constructor
    · rintro (⟨t, ht⟩ | ⟨l, r, rfl⟩)
      · exact ⟨[], t, by simpa using ht⟩
      · exact ⟨b :: l, r, rfl⟩
    · rintro ⟨l, r, hl⟩
      cases l with
      | nil => exact Or.inl ⟨r, by simpa using hl⟩
      | cons x xs =>
        rw [List.cons_append] at hl
        exact Or.inr ⟨xs, r, (List.cons.injEq ..).mp hl |>.2⟩

theorem strContains_iff (hay needle : String) :
    strContains hay needle = true ↔ ∃ l r, hay.data = l ++ (needle.data ++ r) :=
  infixB_iff needle.data hay.data

/-- Whitespace characters stripped by Python's `str.strip` and `str.rstrip`
(the ASCII ones occurring in this code's data). -/
def isSpaceChar (c : Char) : Bool :=
  c == ' ' || c == '\t' || c == '\n' || c == '\r'

/-- Model of Python's `str.strip()`: drop leading and trailing whitespace. -/
def pyStrip (s : String) : String :=
  ⟨((s.data.dropWhile isSpaceChar).reverse.dropWhile isSpaceChar).reverse⟩

/-- Model of Python's `str.rstrip()`: drop trailing whitespace. -/
def pyRstrip (s : String) : String :=
  ⟨(s.data.reverse.dropWhile isSpaceChar).reverse⟩

/-- Model of Python's `str.startswith`. -/
def strStartsWith (s pre : String) : Bool :=
  prefixB pre.data s.data

/-- Model of Python's `str.endswith` (used for the `*.zip` glob). -/
def strEndsWith (s suf : String) : Bool :=
  prefixB suf.data.reverse s.data.reverse

/-- Model of Python's `str.lower` on the ASCII names involved. -/
def lowerStr (s : String) : String :=
  ⟨s.data.map Char.toLower⟩

/-- Split a character list at its first `=`: the characters before it and
the characters after it. -/
def splitAtEq : List Char → List Char × List Char
  | [] => ([], [])
  | c :: cs =>
    if c == '=' then ([], cs)
    else ((splitAtEq cs).1.cons c, (splitAtEq cs).2)

/-- Model of a file offered to `zipfile.ZipFile`: either it fails to open as a
ZIP archive (raising `BadZipFile` or another exception), or it is a valid
archive with the given list of entry names. -/
inductive ZipFile
  | corrupt
  | archive (entries : List String)
deriving DecidableEq

/-- Entry-name substring that `validate_bedrock_zip` looks for. -/
def bedrockNeedle : String := "bedrock_server"

/-- Embedding of `SpaceBedrockManager.validate_bedrock_zip` from
`space-launcher.py` (lines 125-155): open the ZIP, list its entries, and
require some entry name to contain the substring `bedrock_server`; any
exception while opening yields `False`. The logging calls have no effect on
the result and are omitted. -/
def validate_bedrock_zip : ZipFile → Bool
  | .corrupt => false
  | .archive entries => entries.any (fun f => strContains f bedrockNeedle)

/-- Effectful actions performed by `install_bedrock_server`, in order:
a network download attempt of the given URL, an extraction of the named
archive into the data directory, a permission change, and a file deletion. -/
inductive InstallEvent
  | netDownload (url : String)
  | extract (zipName : String)
  | chmod (path : String)
  | unlink (path : String)
deriving DecidableEq

/-- Boolean test that a trace contains a network download attempt. -/
def hasNetDownload (evs : List InstallEvent) : Bool :=
  evs.any (fun ev => match ev with
    | .netDownload _ => true
    | _ => false)

namespace Bedrock

/-- Fields of the `CONFIG` dictionary of `bedrock-launcher.py` (lines 32-46)
that the embedded code consults. -/
structure Config where
  version : String
  port : Nat
  dataDir : String
  mirrors : List String
  timeout : Nat
  maxRetries : Nat

/-- Embedding of the `CONFIG` dictionary of `bedrock-launcher.py`. -/
def CONFIG : Config :=
  { version := "1.21.44.01"
    port := 19132
    dataDir := "space-data"
    mirrors := ["https://minecraft.azureedge.net/bin-linux/",
                "https://cdn-raw.overwolf.com/",
                "https://bedrock-servers.s3.amazonaws.com/"]
    timeout := 45
    maxRetries := 5 }

/-- Network environment answering the queries made by `download_file`:
whether the `requests` module is importable or installable
(`install_dependencies` returns it), whether a `requests.get` transfer of a
given URL completes, and whether a `urllib.request.urlopen` transfer of a
given URL completes. -/
structure NetEnv where
  requestsAvailable : Bool
  requestsOk : String → Bool
  urllibOk : String → Bool

/-- Embedding of `SpaceBedrockManager.download_file` from
`bedrock-launcher.py` (lines 113-171). The code makes one attempt with
`requests` when that module is available, and on failure (or when the module
is unavailable) makes one fallback attempt with `urllib`; it returns whether
a transfer succeeded, paired here with the number of network attempts made. -/
def download_file (e : NetEnv) (url : String) : Bool × Nat :=
  if e.requestsAvailable then
    if e.requestsOk url then (true, 1)
    else (e.urllibOk url, 2)
  else (e.urllibOk url, 1)

/-- Result of `download_file` alone. -/
def downloadOk (e : NetEnv) (url : String) : Bool :=
  (download_file e url).1

/-- Archive file name `bedrock-server-<version>.zip` built by
`install_bedrock_server`. -/
def zipName : String := "bedrock-server-" ++ CONFIG.version ++ ".zip"

/-- Size threshold of `install_bedrock_server`: 50 * 1024 * 1024 bytes. -/
def sizeFloor : Nat := 50 * 1024 * 1024

/-- Environment of one `install_bedrock_server` run: whether
`data_dir/bedrock_server` already exists, the network environment, the size
`zip_path.stat().st_size` of the file left by a successful download of a
given URL, whether `zipfile` extraction raises, and whether extraction
produces the `bedrock_server` file. -/
structure InstallEnv where
  serverExists : Bool
  net : NetEnv
  fileSize : String → Nat
  extractRaises : Bool
  extractYieldsServer : Bool

/-- Mirror acceptance test of `install_bedrock_server`: the download
succeeds and the resulting file is not under the 50 MiB floor. -/
def goodMirror (e : InstallEnv) (url : String) : Bool :=
  downloadOk e.net url && !(e.fileSize url < sizeFloor)

/-- Embedding of the mirror loop of `install_bedrock_server`
(`bedrock-launcher.py` lines 210-222): try each mirror in list order; a
failed download or a file under 50 MiB moves on to the next mirror; the
first accepted URL breaks out of the loop. Returns the accepted URL (if any)
and the trace of download attempts. -/
def tryMirrors (e : InstallEnv) : List String → Option String × List InstallEvent
  | [] => (none, [])
  | m :: rest =>
    if downloadOk e.net (m ++ zipName) then
      if e.fileSize (m ++ zipName) < sizeFloor then
        ((tryMirrors e rest).1, .netDownload (m ++ zipName) :: (tryMirrors e rest).2)
      else (some (m ++ zipName), [.netDownload (m ++ zipName)])
    else
      ((tryMirrors e rest).1, .netDownload (m ++ zipName) :: (tryMirrors e rest).2)

/-- Embedding of `SpaceBedrockManager.install_bedrock_server` from
`bedrock-launcher.py` (lines 198-246): return `True` at once when the server
file exists; otherwise run the mirror loop, and when all mirrors are
exhausted (the `for`-`else` branch) return `False`; on an accepted mirror,
extract the archive, check the server file appeared, `chmod 0o755` it, and
delete the ZIP. Returns the result and the trace of effectful actions. -/
def install_bedrock_server (e : InstallEnv) : Bool × List InstallEvent :=
  if e.serverExists then (true, [])
  else
    match tryMirrors e CONFIG.mirrors with
    | (none, evs) => (false, evs)
    | (some _, evs) =>
      if e.extractRaises then (false, evs ++ [.extract zipName])
      else if e.extractYieldsServer then
        (true, evs ++ [.extract zipName, .chmod "bedrock_server", .unlink zipName])
      else (false, evs ++ [.extract zipName])

end Bedrock

namespace ManualZip

/-- Fields of the `CONFIG` dictionary of `space-launcher.py` (lines 31-41)
that the embedded code consults. -/
structure Config where
  version : String
  port : Nat
  dataDir : String
  manualZipName : String
  timeout : Nat
  maxRetries : Nat
  worldName : String

/-- Embedding of the `CONFIG` dictionary of `space-launcher.py`. -/
def CONFIG : Config :=
  { version := "manual"
    port := 19132
    dataDir := "space-data"
    manualZipName := "bedrock-server.zip"
    timeout := 60
    maxRetries := 3
    worldName := "Space-World" }

/-- Listing of one searched directory: each file name paired with its
content as seen by `zipfile`. -/
def Listing := List (String × ZipFile)

/-- Candidate names tried by `find_manual_zip`
(`space-launcher.py` lines 97-103): `CONFIG["manual_zip_name"]` followed by
the four literal names. -/
def possibleNames : List String :=
  [CONFIG.manualZipName, "bedrock-server.zip", "bedrock_server.zip",
   "minecraft-server.zip", "server.zip"]

/-- Keywords of the second search phase of `find_manual_zip`. -/
def zipKeywords : List String := ["bedrock", "server", "minecraft"]

/-- Embedding of `SpaceBedrockManager.find_manual_zip` from
`space-launcher.py` (lines 91-123): first, for each search directory
(current directory, then the data directory) and each candidate name in
order, return the first existing file of that name; failing that, return the
first `*.zip` file of either directory whose lower-cased name contains one
of the keywords. -/
def find_manual_zip (cur dat : Listing) : Option (String × ZipFile) :=
  let dirs : List Listing := [cur, dat]
  match dirs.findSome? (fun d =>
      possibleNames.findSome? (fun n => d.find? (fun p => p.1 == n))) with
  | some r => some r
  | none =>
    dirs.findSome? (fun d => d.find? (fun p =>
      strEndsWith p.1 ".zip"
        && zipKeywords.any (fun k => strContains (lowerStr p.1) k)))

/-- Environment of one manual-ZIP `install_bedrock_server` run: whether
`data_dir/bedrock_server` already exists, the listings of the current and
data directories, whether `zipfile` extraction raises, and whether
extraction produces the `bedrock_server` file. -/
structure InstallEnv where
  serverExists : Bool
  cur : Listing
  dat : Listing
  extractRaises : Bool
  extractYieldsServer : Bool

/-- Embedding of `SpaceBedrockManager.install_bedrock_server` from
`space-launcher.py` (lines 157-198): return `True` at once when the server
file exists; otherwise locate a manual ZIP (returning `False` with printed
instructions when none is found), validate it with `validate_bedrock_zip`
(returning `False` when validation fails), then extract it, check the
server file appeared, and `chmod 0o755` it. No branch of this function
performs a network download. Returns the result and the trace of effectful
actions. -/
def install_bedrock_server (e : InstallEnv) : Bool × List InstallEvent :=
  if e.serverExists then (true, [])
  else
    match find_manual_zip e.cur e.dat with
    | none => (false, [])
    | some (name, z) =>
      if validate_bedrock_zip z then
        if e.extractRaises then (false, [.extract name])
        else if e.extractYieldsServer then
          (true, [.extract name, .chmod "bedrock_server"])
        else (false, [.extract name])
      else (false, [])

end ManualZip

/-- State of one supervised child process as `cleanup` observes it:
whether `poll()` returns `None` (still running), and whether the process
exits within the `wait(timeout=...)` window after `terminate()`. -/
structure ProcState where
  running : Bool
  exitsWithinTimeout : Bool
deriving DecidableEq, Fintype

/-- Identity of a supervised child process. -/
inductive ProcId
  | server
  | tunnel
deriving DecidableEq

/-- Process-control actions emitted by `cleanup`, in order:
`terminate()` (SIGTERM), `wait(timeout=t)`, and `kill()` (SIGKILL). -/
inductive CleanupEvent
  | terminate (p : ProcId)
  | waitFor (p : ProcId) (timeout : Nat)
  | kill (p : ProcId)
deriving DecidableEq

/-- Embedding of one `if self.X_process and poll() is None` block of
`cleanup`: when the process exists and is running, send `terminate()`, then
`wait(timeout=t)`, and send `kill()` only when the wait times out. -/
def stopProc (p : ProcId) (t : Nat) : Option ProcState → List CleanupEvent
  | none => []
  | some s =>
    if s.running then
      [.terminate p, .waitFor p t] ++ (if s.exitsWithinTimeout then [] else [.kill p])
    else []

/-- Embedding of `SpaceBedrockManager.cleanup` (identical in
`bedrock-launcher.py` lines 457-476 and `space-launcher.py` lines 578-597):
stop the server process with a 15-second wait window, then the tunnel
process with a 5-second window. The `self.running = False` store is the
flag clearing modelled in the log-reader section. -/
def cleanup (server tunnel : Option ProcState) : List CleanupEvent :=
  stopProc .server 15 server ++ stopProc .tunnel 5 tunnel

/-- Embedding of `SpaceBedrockManager.signal_handler`, registered by
`setup_signal_handlers` for both SIGINT and SIGTERM: run `cleanup`, then
`sys.exit(0)`. Returns the cleanup trace and the exit status. -/
def signal_handler (server tunnel : Option ProcState) : List CleanupEvent × Nat :=
  (cleanup server tunnel, 0)

/-- Checker that every `kill p` in a trace is preceded by a `terminate p`
for the same process; `seen` accumulates the processes terminated so far. -/
def killsAfterTerminate : List CleanupEvent → List ProcId → Bool
  | [], _ => true
  | .terminate p :: rest, seen => killsAfterTerminate rest (p :: seen)
  | .waitFor _ _ :: rest, seen => killsAfterTerminate rest seen
  | .kill p :: rest, seen => seen.contains p && killsAfterTerminate rest seen

/-- Checker that no event for the server process follows an event for the
tunnel process (the server is handled first). -/
def serverHandledFirst : List CleanupEvent → Bool
  | [] => true
  | ev :: rest =>
    let pid := match ev with
      | .terminate p => p
      | .waitFor p _ => p
      | .kill p => p
    match pid with
    | .server => serverHandledFirst rest
    | .tunnel => rest.all (fun ev2 => match ev2 with
        | .terminate p => p == ProcId.tunnel
        | .waitFor p _ => p == ProcId.tunnel
        | .kill p => p == ProcId.tunnel)

/-- State of `self.tunnel_process` at the moment a tunnel-setup function
returns: spawned and still running, or spawned but already exited. -/
inductive TunnelProc
  | alive
  | exited
deriving DecidableEq

/-- Result of a tunnel-setup call: the returned boolean and the state of
`self.tunnel_process` (`none` when no process was spawned by the call). -/
structure TunnelOutcome where
  ok : Bool
  proc : Option TunnelProc
deriving DecidableEq

/-- Environment of `setup_cloudflared` in `bedrock-launcher.py`: whether the
`cloudflared` binary already exists in the data directory, whether its
download succeeds, whether `CLOUDFLARED_TOKEN` is set, whether
`subprocess.Popen` succeeds without raising, and whether `poll()` is still
`None` after the 8-second initialization sleep. -/
structure TunnelEnv where
  binExists : Bool
  downloadOk : Bool
  tokenPresent : Bool
  spawnOk : Bool
  aliveAfterInit : Bool
deriving DecidableEq, Fintype

/-- Embedding of `SpaceBedrockManager.setup_cloudflared` from
`bedrock-launcher.py` (lines 271-338): download the binary when absent
(failing the call when the download fails), require the token, spawn the
tunnel process, sleep, and return `False` when the process already exited,
else `True`. The `access tcp` probe only fills `connection_info` and cannot
change the result. `space-launcher.py`'s `start_cloudflared_tunnel`
(lines 316-365) has the same spawn/poll/return structure. -/
def setup_cloudflared (e : TunnelEnv) : TunnelOutcome :=
  if !e.binExists && !e.downloadOk then ⟨false, none⟩
  else if !e.tokenPresent then ⟨false, none⟩
  else if !e.spawnOk then ⟨false, none⟩
  else if !e.aliveAfterInit then ⟨false, some .exited⟩
  else ⟨true, some .alive⟩

/-- Embedding of `SpaceBedrockManager.setup_codespaces_tunnel` (identical
in `bedrock-launcher.py` lines 254-269 and `space-launcher.py` lines
206-220): record connection info built from environment variables and
return `True`; no process is spawned. -/
def setup_codespaces_tunnel : TunnelOutcome := ⟨true, none⟩

/-- Embedding of `SpaceBedrockManager.setup_tunnel` (both variants):
dispatch on Codespaces detection. -/
def setup_tunnel (isCodespaces : Bool) (e : TunnelEnv) : TunnelOutcome :=
  if isCodespaces then setup_codespaces_tunnel else setup_cloudflared e

/-- Steps performed by one iteration of `run_interactive` after the user
selects menu option `"1"`. -/
inductive MenuStep
  | installServer
  | promptError
  | installDeps
  | configureServer
  | setupTunnel
  | warnNoTunnel
  | printInfo
  | startServer
  | runCleanup
deriving DecidableEq

/-- Outcomes that steer one option-`"1"` iteration: whether
`install_bedrock_server` returns `True`, and whether `setup_tunnel`
returns `True`. -/
structure MenuEnv where
  installOk : Bool
  tunnelOk : Bool
deriving DecidableEq, Fintype

/-- Embedding of the `choice == "1"` branch of `run_interactive` in
`bedrock-launcher.py` (lines 534-565): when installation fails, prompt and
continue to the next loop iteration; otherwise configure the server,
attempt the tunnel (printing a warning and carrying on when it fails),
print connection info, start the server, and clean up. -/
def choice1Bedrock (e : MenuEnv) : List MenuStep :=
  if !e.installOk then [.installServer, .promptError]
  else
    [.installServer, .configureServer, .setupTunnel]
      ++ (if e.tunnelOk then [] else [.warnNoTunnel])
      ++ [.printInfo, .startServer, .runCleanup]

/-- Embedding of the `choice == "1"` branch of `run_interactive` in
`space-launcher.py` (lines 700-735): as the bedrock variant, with an
`install_dependencies` step between installation and configuration. -/
def choice1Space (e : MenuEnv) : List MenuStep :=
  if !e.installOk then [.installServer, .promptError]
  else
    [.installServer, .installDeps, .configureServer, .setupTunnel]
      ++ (if e.tunnelOk then [] else [.warnNoTunnel])
      ++ [.printInfo, .startServer, .runCleanup]

/-- Ordering of the option-`"1"` steps claimed by the spec: install, then
configure, then tunnel setup, then server start, then cleanup. -/
def stepsInOrder (tr : List MenuStep) : Prop :=
  tr.indexOf MenuStep.installServer < tr.indexOf MenuStep.configureServer
    ∧ tr.indexOf MenuStep.configureServer < tr.indexOf MenuStep.setupTunnel
    ∧ tr.indexOf MenuStep.setupTunnel < tr.indexOf MenuStep.startServer
    ∧ tr.indexOf MenuStep.startServer < tr.indexOf MenuStep.runCleanup

instance (tr : List MenuStep) : Decidable (stepsInOrder tr) := by
  unfold stepsInOrder
  infer_instance

/-- Concurrency-relevant actions of `start_server`: spawning the server
child process, spawning a thread (with its `daemon` flag), or using any
other coordination primitive (lock, condition, semaphore, queue) — the last
constructor is part of the vocabulary so that its absence from every trace
is a meaningful statement. -/
inductive ConcEvent
  | spawnChild
  | spawnThread (daemon : Bool)
  | otherCoordination
deriving DecidableEq

/-- Embedding of the concurrency actions of `start_server` in
`bedrock-launcher.py` (lines 407-455): when the server file is missing,
return without spawning; otherwise spawn the child process with
`subprocess.Popen` and start exactly one `threading.Thread` with
`daemon=True` running `log_reader`. -/
def startServerConcBedrock (serverExists : Bool) : List ConcEvent :=
  if serverExists then [.spawnChild, .spawnThread true] else []

/-- Embedding of the concurrency actions of `start_server` in
`space-launcher.py` (lines 524-576): as the bedrock variant, with an
additional early return when the port is already in use. -/
def startServerConcSpace (serverExists portInUse : Bool) : List ConcEvent :=
  if !serverExists then []
  else if portInUse then []
  else [.spawnChild, .spawnThread true]

/-- One observation made by an iteration of the `log_reader` loop: the
`self.running` flag, whether `poll()` returns `None` (child alive), the
`time.strftime` timestamp, and the line returned by `readline()` (empty
when no line is available). -/
structure LogStep where
  running : Bool
  alive : Bool
  ts : String
  line : String

/-- Output format of the `log_reader` thread:
`print(f"[timestamp] line.rstrip()")`. -/
def fmtLog (ts line : String) : String :=
  "[" ++ ts ++ "] " ++ pyRstrip line

/-- Embedding of the `log_reader` loop body (identical in
`bedrock-launcher.py` lines 430-438 and `space-launcher.py` lines 552-560)
over a schedule of observations: while `self.running` holds and the child
has not exited, read one line and print it timestamped when non-empty;
stop as soon as either condition fails. Returns the printed lines. -/
def logReaderRun : List LogStep → List String
  | [] => []
  | s :: rest =>
    if s.running && s.alive then
      (if s.line = "" then logReaderRun rest
       else fmtLog s.ts s.line :: logReaderRun rest)
    else []

/-- Model of Python's `line.strip().split('=', 1)`: split the stripped line
at its first `=`. -/
def splitKV (s : String) : String × String :=
  (⟨(splitAtEq s.data).1⟩, ⟨(splitAtEq s.data).2⟩)

/-- Embedding of the existing-line parse of `configure_server` in
`bedrock-launcher.py` (lines 367-371): a line is taken when it contains
`=`. -/
def parseLineBedrock (line : String) : Option (String × String) :=
  if strContains line "=" then some (splitKV (pyStrip line)) else none

/-- Embedding of the existing-line parse of `configure_server` in
`space-launcher.py` (lines 425-429): a line is taken when it contains `=`
and its stripped form does not start with `#`. -/
def parseLineSpace (line : String) : Option (String × String) :=
  if strContains line "=" && !(strStartsWith (pyStrip line) "#") then
    some (splitKV (pyStrip line))
  else none

/-- Value held by a Python dict built by repeated assignment from a list of
pairs: the last assignment to the key wins. -/
def lastVal (kvs : List (String × String)) (k : String) : Option String :=
  (kvs.reverse.find? (fun p => p.1 == k)).map Prod.snd

/-- Overlay step of `configure_server`: for each default key, keep the
pre-existing value when the key was present; the iteration is over the
default dict's keys, so the output order is the default order. -/
def overlayConfig (base ex : List (String × String)) : List (String × String) :=
  base.map (fun p => (p.1, (lastVal ex p.1).getD p.2))

/-- Rendering of the written `server.properties`: one `key=value` line per
pair, in order. -/
def renderConfig (kvs : List (String × String)) : List String :=
  kvs.map (fun p => p.1 ++ "=" ++ p.2)

namespace Bedrock

/-- Embedding of the `server_config` default dict of `configure_server` in
`bedrock-launcher.py` (lines 344-359), in insertion order. -/
def defaultConfig : List (String × String) :=
  [("server-name", "Space Bedrock Server"),
   ("gamemode", "survival"),
   ("difficulty", "normal"),
   ("allow-cheats", "false"),
   ("max-players", "10"),
   ("online-mode", "true"),
   ("server-port", "19132"),
   ("level-name", "Space-World"),
   ("default-player-permission-level", "member"),
   ("player-idle-timeout", "30"),
   ("view-distance", "12"),
   ("max-threads", "0"),
   ("server-authoritative-movement", "server-auth"),
   ("compression-threshold", "1")]

/-- Embedding of `SpaceBedrockManager.configure_server` from
`bedrock-launcher.py` (lines 340-381), as a function from the pre-existing
`server.properties` content (`none` when the file does not exist, else its
lines) to the list of key-value pairs written back. -/
def configure_server (existing : Option (List String)) : List (String × String) :=
  match existing with
  | none => defaultConfig
  | some lines => overlayConfig defaultConfig (lines.filterMap parseLineBedrock)

end Bedrock

namespace ManualZip

/-- Embedding of the `server_config` default dict of `configure_server` in
`space-launcher.py` (lines 399-417), in insertion order. -/
def defaultConfig : List (String × String) :=
  [("server-name", "Space Bedrock Server"),
   ("gamemode", "survival"),
   ("difficulty", "normal"),
   ("allow-cheats", "false"),
   ("max-players", "10"),
   ("online-mode", "true"),
   ("server-port", "19132"),
   ("level-name", "Space-World"),
   ("level-seed", ""),
   ("default-player-permission-level", "member"),
   ("player-idle-timeout", "30"),
   ("view-distance", "12"),
   ("max-threads", "0"),
   ("server-authoritative-movement", "server-auth"),
   ("compression-threshold", "1"),
   ("content-log-file-enabled", "true"),
   ("debug-output", "true")]

/-- Embedding of `SpaceBedrockManager.configure_server` from
`space-launcher.py` (lines 389-453), restricted to the `server.properties`
content it writes (the world-directory creation and world-file touches do
not affect the file). -/
def configure_server (existing : Option (List String)) : List (String × String) :=
  match existing with
  | none => defaultConfig
  | some lines => overlayConfig defaultConfig (lines.filterMap parseLineSpace)

end ManualZip

/-! ### Supporting lemmas -/

theorem tryMirrors_events_length (e : Bedrock.InstallEnv) :
    ∀ ms : List String, (Bedrock.tryMirrors e ms).2.length ≤ ms.length
  | [] => by simp [Bedrock.tryMirrors]
  | m :: rest => by
    simp only [Bedrock.tryMirrors]
    split
    · split
      · simpa using tryMirrors_events_length e rest
      · simp
    · simpa using tryMirrors_events_length e rest

/-- Network environment in which the `requests` module is available but
every transfer, by either method, fails. -/
def failNet : Bedrock.NetEnv :=
  { requestsAvailable := true, requestsOk := fun _ => false, urllibOk := fun _ => false }

/-- URL of the first mirror of the multi-mirror variant. -/
def firstMirrorUrl : String := "https://minecraft.azureedge.net/bin-linux/" ++ Bedrock.zipName

/-! ### Claims -/

/-- Claim C1, counterexample: with `requests` importable and every transfer
failing, `download_file` makes exactly two network attempts (one with
`requests`, one with `urllib`) and reports failure, although
`CONFIG["max_retries"]` is 5; the code never retries a mirror
`max_retries` times and has no backoff loop — the `max_retries` entry is
never read. -/
theorem c1_counterexample :
    (Bedrock.download_file failNet firstMirrorUrl).1 = false
      ∧ (Bedrock.download_file failNet firstMirrorUrl).2 = 2
      ∧ Bedrock.CONFIG.maxRetries = 5
      ∧ (Bedrock.download_file failNet firstMirrorUrl).2 ≠ Bedrock.CONFIG.maxRetries := by
  refine ⟨rfl, rfl, rfl, ?_⟩
  decide

/-- Claim C1, amended: for every archive download in
`install_bedrock_server`, a failed primary (`requests`) attempt is followed
by exactly one `urllib` fallback attempt — at most two attempts in total,
always fewer than `CONFIG["max_retries"]`, with no backoff; the download
reports failure exactly when both methods fail, and the mirror loop then
moves on, attempting each mirror at most once. -/
theorem c1_download_fallback_not_retries (e : Bedrock.NetEnv) (url : String)
    (ie : Bedrock.InstallEnv) (ms : List String) :
    (Bedrock.download_file e url).2 ≤ 2
      ∧ (Bedrock.download_file e url).2 < Bedrock.CONFIG.maxRetries
      ∧ (Bedrock.download_file e url).1
          = ((e.requestsAvailable && e.requestsOk url) || e.urllibOk url)
      ∧ (Bedrock.tryMirrors ie ms).2.length ≤ ms.length := by
  refine ⟨?_, ?_, ?_, tryMirrors_events_length ie ms⟩ <;>
    cases hra : e.requestsAvailable <;> cases hro : e.requestsOk url <;>
      cases huo : e.urllibOk url <;>
      simp [Bedrock.download_file, Bedrock.CONFIG, hra, hro, huo]

/-- Claim C2: on SIGINT or SIGTERM the registered `signal_handler` runs
`cleanup` and exits with status 0; `cleanup` handles the server process
(15-second wait window) before the tunnel process (5-second window), sends
`kill` to a process exactly when it was still running and did not exit
within its wait window after `terminate`, and never sends `kill` to a
process it has not first sent `terminate`. -/
theorem c2_cleanup_terminate_before_kill :
    ∀ server tunnel : Option ProcState,
      killsAfterTerminate (cleanup server tunnel) [] = true
        ∧ serverHandledFirst (cleanup server tunnel) = true
        ∧ (signal_handler server tunnel).2 = 0
        ∧ (CleanupEvent.kill .server ∈ cleanup server tunnel
            ↔ ∃ s, server = some s ∧ s.running = true ∧ s.exitsWithinTimeout = false)
        ∧ (CleanupEvent.kill .tunnel ∈ cleanup server tunnel
            ↔ ∃ s, tunnel = some s ∧ s.running = true ∧ s.exitsWithinTimeout = false)
        ∧ (CleanupEvent.waitFor .server 15 ∈ cleanup server tunnel
            ↔ ∃ s, server = some s ∧ s.running = true)
        ∧ (CleanupEvent.waitFor .tunnel 5 ∈ cleanup server tunnel
            ↔ ∃ s, tunnel = some s ∧ s.running = true) := by
  decide

/-- Claim C3: after menu option `"1"`, the iteration runs installation
first and aborts (prompting an error) when it fails; on success the steps
occur in the order install, configure, tunnel setup, server start, cleanup,
and the server is started whether or not the tunnel setup succeeded (a
failure only prints a warning). Holds for both variants; output streaming
happens inside the started server step (see the log-reader theorems). -/
theorem c3_option1_sequence :
    ∀ e : MenuEnv,
      (e.installOk = false →
        choice1Bedrock e = [MenuStep.installServer, MenuStep.promptError]
          ∧ choice1Space e = [MenuStep.installServer, MenuStep.promptError]
          ∧ MenuStep.startServer ∉ choice1Bedrock e
          ∧ MenuStep.startServer ∉ choice1Space e)
        ∧ (e.installOk = true →
          stepsInOrder (choice1Bedrock e) ∧ stepsInOrder (choice1Space e)
            ∧ MenuStep.startServer ∈ choice1Bedrock e
            ∧ MenuStep.startServer ∈ choice1Space e
            ∧ MenuStep.runCleanup ∈ choice1Bedrock e
            ∧ MenuStep.runCleanup ∈ choice1Space e) := by
  decide

/-- Witness for C3: with installation succeeding and tunnel setup failing,
the server is still started. -/
theorem c3_option1_sequence_witness :
    ({ installOk := true, tunnelOk := false } : MenuEnv).installOk = true
      ∧ MenuStep.startServer ∈ choice1Bedrock { installOk := true, tunnelOk := false } :=
  ⟨rfl, ((c3_option1_sequence { installOk := true, tunnelOk := false }).2 rfl).2.2.1⟩

/-- Claim C4: `validate_bedrock_zip` returns `True` exactly when the file
opens as a valid ZIP archive one of whose entry names contains the
substring `bedrock_server` (the embedding is a total function, so no
exception escapes), and the manual-ZIP `install_bedrock_server` performs an
extraction only on an archive that passed this validation. -/
theorem c4_validate_zip (z : ZipFile) (e : ManualZip.InstallEnv) (name : String) :
    (validate_bedrock_zip z = true ↔
        ∃ entries, z = ZipFile.archive entries
          ∧ ∃ f ∈ entries, ∃ l r, f.data = l ++ (bedrockNeedle.data ++ r))
      ∧ (InstallEvent.extract name ∈ (ManualZip.install_bedrock_server e).2 →
          ∃ zf, ManualZip.find_manual_zip e.cur e.dat = some (name, zf)
            ∧ validate_bedrock_zip zf = true) := by
  constructor
  · cases z with
    | corrupt => simp [validate_bedrock_zip]
    | archive es =>
      simp only [validate_bedrock_zip, List.any_eq_true, ZipFile.archive.injEq]
      constructor
      · rintro ⟨f, hf, hc⟩
        exact ⟨es, rfl, f, hf, (strContains_iff f bedrockNeedle).mp hc⟩
      · rintro ⟨entries, rfl, f, hf, hsub⟩
        exact ⟨f, hf, (strContains_iff f bedrockNeedle).mpr hsub⟩
  · intro hmem
    unfold ManualZip.install_bedrock_server at hmem
    split at hmem
    · simp at hmem
    · rcases hfind : ManualZip.find_manual_zip e.cur e.dat with - | ⟨n, zf⟩ <;>
        rw [hfind] at hmem
      · simp at hmem
      · by_cases hval : validate_bedrock_zip zf = true
        · simp only [hval, if_true] at hmem
          have hname : name = n := by
            split at hmem
            · simpa using hmem
            · split at hmem <;> simpa using hmem
          subst hname
          exact ⟨zf, rfl, hval⟩
        · simp only [Bool.not_eq_true] at hval
          simp [hval] at hmem

/-- ZIP archive used to exercise the C4 theorem at a concrete input. -/
def c4Zip : ZipFile := ZipFile.archive ["bedrock_server", "server.properties"]

/-- Witness for C4: a concrete archive holding a `bedrock_server` entry
validates. -/
theorem c4_validate_zip_witness : validate_bedrock_zip c4Zip = true :=
  (c4_validate_zip c4Zip ⟨true, [], [], false, false⟩ "x").1.mpr
    ⟨["bedrock_server", "server.properties"], rfl,
      "bedrock_server", by simp, [], [], by simp [bedrockNeedle]⟩

theorem tryMirrors_fst (e : Bedrock.InstallEnv) :
    ∀ ms : List String,
      (Bedrock.tryMirrors e ms).1
        = (ms.find? fun m => Bedrock.goodMirror e (m ++ Bedrock.zipName)).map
            (fun m => m ++ Bedrock.zipName)
  | [] => rfl
  | m :: rest => by
    cases hd : Bedrock.downloadOk e.net (m ++ Bedrock.zipName) <;>
      by_cases hs : e.fileSize (m ++ Bedrock.zipName) < Bedrock.sizeFloor <;>
      simp [Bedrock.tryMirrors, Bedrock.goodMirror, List.find?_cons, hd, hs,
        tryMirrors_fst e rest]

theorem tryMirrors_none_events (e : Bedrock.InstallEnv) :
    ∀ ms : List String, (Bedrock.tryMirrors e ms).1 = none →
      (Bedrock.tryMirrors e ms).2
        = ms.map (fun m => InstallEvent.netDownload (m ++ Bedrock.zipName))
  | [] => fun _ => rfl
  | m :: rest => by
    intro hnone
    cases hd : Bedrock.downloadOk e.net (m ++ Bedrock.zipName) <;>
      by_cases hs : e.fileSize (m ++ Bedrock.zipName) < Bedrock.sizeFloor <;>
      rw [Bedrock.tryMirrors] <;> simp only [hd, hs, if_true, if_false] <;>
      simp_all [Bedrock.tryMirrors, hd, hs, tryMirrors_none_events e rest]

/-- Claim C5: the multi-mirror `install_bedrock_server` accepts the first
mirror, in the order of the static `CONFIG["mirrors"]` list, whose download
succeeds with a file of at least 50 MiB (a smaller file is treated as a
corrupt download and the loop moves on); when no mirror is accepted every
mirror has been attempted in order and, with the server not yet installed,
the function returns `False`; an accepted mirror leads to extraction. -/
theorem c5_mirror_selection (e : Bedrock.InstallEnv) (url : String) :
    (∀ u, Bedrock.goodMirror e u = true
        ↔ Bedrock.downloadOk e.net u = true ∧ Bedrock.sizeFloor ≤ e.fileSize u)
      ∧ ((Bedrock.tryMirrors e Bedrock.CONFIG.mirrors).1
          = (Bedrock.CONFIG.mirrors.find? fun m =>
              Bedrock.goodMirror e (m ++ Bedrock.zipName)).map
                (fun m => m ++ Bedrock.zipName))
      ∧ ((Bedrock.tryMirrors e Bedrock.CONFIG.mirrors).1 = none →
          (Bedrock.tryMirrors e Bedrock.CONFIG.mirrors).2
            = Bedrock.CONFIG.mirrors.map
                (fun m => InstallEvent.netDownload (m ++ Bedrock.zipName)))
      ∧ (e.serverExists = false →
          (Bedrock.tryMirrors e Bedrock.CONFIG.mirrors).1 = none →
          (Bedrock.install_bedrock_server e).1 = false)
      ∧ (e.serverExists = false →
          (Bedrock.tryMirrors e Bedrock.CONFIG.mirrors).1 = some url →
          InstallEvent.extract Bedrock.zipName ∈ (Bedrock.install_bedrock_server e).2) := by
  refine ⟨?_, tryMirrors_fst e _, tryMirrors_none_events e _, ?_, ?_⟩
  · intro u
    simp [Bedrock.goodMirror, Nat.not_lt, Bool.and_eq_true]
  · intro hse hnone
    rcases hp : Bedrock.tryMirrors e Bedrock.CONFIG.mirrors with ⟨r, evs⟩
    rw [hp] at hnone
    have hr : r = none := hnone
    subst hr
    simp [Bedrock.install_bedrock_server, hse, hp]
  · intro hse hsome
    rcases hp : Bedrock.tryMirrors e Bedrock.CONFIG.mirrors with ⟨r, evs⟩
    rw [hp] at hsome
    have hr : r = some url := hsome
    subst hr
    simp only [Bedrock.install_bedrock_server, hse, Bool.false_eq_true, if_false, hp]
    split
    · simp
    · split <;> simp

/-- Install environment in which the server is absent and every mirror
download fails. -/
def c5Env : Bedrock.InstallEnv :=
  { serverExists := false
    net := failNet
    fileSize := fun _ => 0
    extractRaises := false
    extractYieldsServer := false }

/-- Witness for C5: with the server absent and every mirror failing,
installation reports failure. -/
theorem c5_mirror_selection_witness :
    c5Env.serverExists = false ∧ (Bedrock.install_bedrock_server c5Env).1 = false :=
  ⟨rfl, (c5_mirror_selection c5Env "u").2.2.2.1 rfl rfl⟩

theorem tryMirrors_attempts_head (e : Bedrock.InstallEnv) (m : String)
    (rest : List String) :
    InstallEvent.netDownload (m ++ Bedrock.zipName)
      ∈ (Bedrock.tryMirrors e (m :: rest)).2 := by
  cases hd : Bedrock.downloadOk e.net (m ++ Bedrock.zipName) <;>
    by_cases hs : e.fileSize (m ++ Bedrock.zipName) < Bedrock.sizeFloor <;>
    simp [Bedrock.tryMirrors, hd, hs]

/-- Manual-ZIP install environment with the server absent and a valid
manually supplied archive in the current directory. -/
def c6Env : ManualZip.InstallEnv :=
  { serverExists := false
    cur := [("bedrock-server.zip", ZipFile.archive ["bedrock_server", "server.properties"])]
    dat := []
    extractRaises := false
    extractYieldsServer := true }

/-- Claim C6, counterexample: in the manual-ZIP variant, with the server
executable absent, `install_bedrock_server` completes successfully without
attempting any network download of the server archive — it locates the
manually supplied ZIP instead. -/
theorem c6_counterexample :
    c6Env.serverExists = false
      ∧ (ManualZip.install_bedrock_server c6Env).1 = true
      ∧ hasNetDownload (ManualZip.install_bedrock_server c6Env).2 = false := by
  refine ⟨rfl, ?_, ?_⟩ <;> rfl

/-- Claim C6, amended: only the multi-mirror variant downloads the server
archive when the server executable is absent (it always attempts at least
the first mirror); the manual-ZIP variant's `install_bedrock_server` never
attempts a network download of the server archive in any state. -/
theorem c6_download_only_multi_mirror (b : Bedrock.InstallEnv)
    (s : ManualZip.InstallEnv) (hb : b.serverExists = false) :
    InstallEvent.netDownload firstMirrorUrl ∈ (Bedrock.install_bedrock_server b).2
      ∧ hasNetDownload (ManualZip.install_bedrock_server s).2 = false := by
  constructor
  · have hmem : InstallEvent.netDownload firstMirrorUrl
        ∈ (Bedrock.tryMirrors b Bedrock.CONFIG.mirrors).2 :=
      tryMirrors_attempts_head b "https://minecraft.azureedge.net/bin-linux/"
        ["https://cdn-raw.overwolf.com/", "https://bedrock-servers.s3.amazonaws.com/"]
    simp only [Bedrock.install_bedrock_server, hb, Bool.false_eq_true, if_false]
    rcases hp : Bedrock.tryMirrors b Bedrock.CONFIG.mirrors with ⟨r, evs⟩
    rw [hp] at hmem
    have hmem2 : InstallEvent.netDownload firstMirrorUrl ∈ evs := hmem
    cases r with
    | none => simpa using hmem2
    | some u =>
      simp only
      split
      · exact List.mem_append_left _ hmem2
      · split
        · exact List.mem_append_left _ hmem2
        · exact List.mem_append_left _ hmem2
  · unfold ManualZip.install_bedrock_server
    split
    · rfl
    · split
      · rfl
      · split
        · split
          · rfl
          · split <;> rfl
        · rfl

/-- Bedrock install environment with the server absent (all transfers
failing), used to exercise the C6 theorem. -/
def c6BedrockEnv : Bedrock.InstallEnv :=
  { serverExists := false
    net := failNet
    fileSize := fun _ => 0
    extractRaises := false
    extractYieldsServer := false }

/-- Witness for C6: with the server absent, the multi-mirror variant
attempts the first mirror's download. -/
theorem c6_download_only_multi_mirror_witness :
    c6BedrockEnv.serverExists = false
      ∧ InstallEvent.netDownload firstMirrorUrl
          ∈ (Bedrock.install_bedrock_server c6BedrockEnv).2 :=
  ⟨rfl, (c6_download_only_multi_mirror c6BedrockEnv c6Env rfl).1⟩

/-- Tunnel environment in which every step succeeds. -/
def c7Env : TunnelEnv :=
  { binExists := true, downloadOk := true, tokenPresent := true,
    spawnOk := true, aliveAfterInit := true }

/-- Claim C7, counterexample: in a Codespaces environment, `setup_tunnel`
returns `True` while `tunnel_process` remains `None` — no child process
was spawned, contradicting the claim that success always means a spawned,
still-running tunnel process. -/
theorem c7_counterexample :
    (setup_tunnel true c7Env).ok = true ∧ (setup_tunnel true c7Env).proc = none :=
  ⟨rfl, rfl⟩

/-- Claim C7, amended: outside Codespaces, whenever `setup_tunnel` returns
`True` the spawned `tunnel_process` is still running at the moment of
return; in Codespaces, `setup_tunnel` returns `True` having only recorded
connection information, spawning no process. -/
theorem c7_tunnel_process :
    ∀ e : TunnelEnv,
      ((setup_tunnel false e).ok = true →
          (setup_tunnel false e).proc = some TunnelProc.alive)
        ∧ setup_tunnel true e = ⟨true, none⟩ := by
  decide

/-- Witness for C7: with every cloudflared step succeeding outside
Codespaces, setup succeeds and the tunnel process is alive. -/
theorem c7_tunnel_process_witness :
    (setup_tunnel false c7Env).ok = true
      ∧ (setup_tunnel false c7Env).proc = some TunnelProc.alive :=
  ⟨rfl, (c7_tunnel_process c7Env).1 rfl⟩

theorem logReaderRun_eq : ∀ sched : List LogStep,
    logReaderRun sched
      = (sched.takeWhile fun st => st.running && st.alive).filterMap
          (fun st => if st.line = "" then none else some (fmtLog st.ts st.line))
  | [] => rfl
  | s :: rest => by
    cases h : s.running && s.alive
    · simp [logReaderRun, List.takeWhile_cons, h]
    · by_cases hl : s.line = "" <;>
        simp [logReaderRun, List.takeWhile_cons, h, hl, logReaderRun_eq rest]

/-- Claim C8: in either variant, a `start_server` run that spawns the
server child also spawns exactly one thread, the daemon log reader, and
emits no other coordination primitive; the log-reader loop prints exactly
the non-empty lines read while both `self.running` holds and the child is
alive (stopping at the first observation where either fails), each
formatted as the line, right-stripped, prefixed with a bracketed
timestamp. -/
theorem c8_single_daemon_log_reader (bs ss pu : Bool) (sched : List LogStep) :
    ((startServerConcBedrock bs).count (ConcEvent.spawnThread true) ≤ 1
        ∧ (ConcEvent.spawnChild ∈ startServerConcBedrock bs →
            (startServerConcBedrock bs).count (ConcEvent.spawnThread true) = 1)
        ∧ ConcEvent.spawnThread false ∉ startServerConcBedrock bs
        ∧ ConcEvent.otherCoordination ∉ startServerConcBedrock bs)
      ∧ ((startServerConcSpace ss pu).count (ConcEvent.spawnThread true) ≤ 1
        ∧ (ConcEvent.spawnChild ∈ startServerConcSpace ss pu →
            (startServerConcSpace ss pu).count (ConcEvent.spawnThread true) = 1)
        ∧ ConcEvent.spawnThread false ∉ startServerConcSpace ss pu
        ∧ ConcEvent.otherCoordination ∉ startServerConcSpace ss pu)
      ∧ logReaderRun sched
          = (sched.takeWhile fun st => st.running && st.alive).filterMap
              (fun st => if st.line = "" then none else some (fmtLog st.ts st.line)) := by
  refine ⟨?_, ?_, logReaderRun_eq sched⟩
  · cases bs <;> decide
  · cases ss <;> cases pu <;> decide

/-- Witness for C8: when the server exists, the bedrock `start_server`
spawns the child and exactly one daemon thread. -/
theorem c8_single_daemon_log_reader_witness :
    ConcEvent.spawnChild ∈ startServerConcBedrock true
      ∧ (startServerConcBedrock true).count (ConcEvent.spawnThread true) = 1 :=
  ⟨by decide, (c8_single_daemon_log_reader true true false []).1.2.1 (by decide)⟩

/-- Claim C9: in either variant, when `data_dir/bedrock_server` already
exists, `install_bedrock_server` returns `True` immediately with an empty
effect trace — no download, extraction, permission change, or deletion. -/
theorem c9_install_idempotent (b : Bedrock.InstallEnv) (s : ManualZip.InstallEnv)
    (hb : b.serverExists = true) (hs : s.serverExists = true) :
    Bedrock.install_bedrock_server b = (true, [])
      ∧ ManualZip.install_bedrock_server s = (true, []) := by
  constructor
  · simp [Bedrock.install_bedrock_server, hb]
  · simp [ManualZip.install_bedrock_server, hs]

/-- Bedrock install environment with the server already present. -/
def c9BedrockEnv : Bedrock.InstallEnv :=
  { serverExists := true
    net := failNet
    fileSize := fun _ => 0
    extractRaises := false
    extractYieldsServer := false }

/-- Manual-ZIP install environment with the server already present. -/
def c9SpaceEnv : ManualZip.InstallEnv :=
  { serverExists := true
    cur := []
    dat := []
    extractRaises := false
    extractYieldsServer := false }

/-- Witness for C9: both installers are no-ops on concrete states with the
server present. -/
theorem c9_install_idempotent_witness :
    Bedrock.install_bedrock_server c9BedrockEnv = (true, [])
      ∧ ManualZip.install_bedrock_server c9SpaceEnv = (true, []) :=
  c9_install_idempotent c9BedrockEnv c9SpaceEnv rfl rfl

theorem overlayConfig_keys (base ex : List (String × String)) :
    (overlayConfig base ex).map Prod.fst = base.map Prod.fst := by
  induction base with
  | nil => rfl
  | cons p rest ih => simp [overlayConfig, List.map_map] at ih ⊢

theorem overlayConfig_length (base ex : List (String × String)) :
    (overlayConfig base ex).length = base.length := by
  simp [overlayConfig]

/-- Claim C10: after `configure_server` the written `server.properties`
holds exactly the default key set, one `key=value` line per key in the
default dict's insertion order (so the written keys and the line count
never depend on the pre-existing file); a default key present in the
pre-existing file keeps its pre-existing value (the last assignment when
the key repeats), and any pre-existing key outside the default set is
dropped. Holds for both variants. -/
theorem c10_configure_server (exB exS : Option (List String))
    (lines : List String) (k v d : String) :
    ((Bedrock.configure_server exB).map Prod.fst = Bedrock.defaultConfig.map Prod.fst
        ∧ (ManualZip.configure_server exS).map Prod.fst
            = ManualZip.defaultConfig.map Prod.fst)
      ∧ ((Bedrock.defaultConfig.map Prod.fst).Nodup
        ∧ (ManualZip.defaultConfig.map Prod.fst).Nodup)
      ∧ ((renderConfig (Bedrock.configure_server exB)).length
            = Bedrock.defaultConfig.length
        ∧ (renderConfig (ManualZip.configure_server exS)).length
            = ManualZip.defaultConfig.length)
      ∧ (lastVal (lines.filterMap parseLineBedrock) k = some v →
          (k, d) ∈ Bedrock.defaultConfig →
          (k, v) ∈ Bedrock.configure_server (some lines))
      ∧ (lastVal (lines.filterMap parseLineSpace) k = some v →
          (k, d) ∈ ManualZip.defaultConfig →
          (k, v) ∈ ManualZip.configure_server (some lines))
      ∧ ((k, v) ∈ Bedrock.configure_server exB →
          k ∈ Bedrock.defaultConfig.map Prod.fst)
      ∧ ((k, v) ∈ ManualZip.configure_server exS →
          k ∈ ManualZip.defaultConfig.map Prod.fst) := by
  have keysB : (Bedrock.configure_server exB).map Prod.fst
      = Bedrock.defaultConfig.map Prod.fst := by
    cases exB with
    | none => rfl
    | some ls => exact overlayConfig_keys _ _
  have keysS : (ManualZip.configure_server exS).map Prod.fst
      = ManualZip.defaultConfig.map Prod.fst := by
    cases exS with
    | none => rfl
    | some ls => exact overlayConfig_keys _ _
  refine ⟨⟨keysB, keysS⟩, ⟨by decide, by decide⟩, ⟨?_, ?_⟩, ?_, ?_, ?_, ?_⟩
  · cases exB with
    | none => rfl
    | some ls => simp [renderConfig, Bedrock.configure_server, overlayConfig_length]
  · cases exS with
    | none => rfl
    | some ls => simp [renderConfig, ManualZip.configure_server, overlayConfig_length]
  · intro hv hd
    have h := List.mem_map_of_mem
      (fun p : String × String =>
        (p.1, (lastVal (lines.filterMap parseLineBedrock) p.1).getD p.2)) hd
    simpa [Bedrock.configure_server, overlayConfig, hv] using h
  · intro hv hd
    have h := List.mem_map_of_mem
      (fun p : String × String =>
        (p.1, (lastVal (lines.filterMap parseLineSpace) p.1).getD p.2)) hd
    simpa [ManualZip.configure_server, overlayConfig, hv] using h
  · intro hm
    have h := List.mem_map_of_mem Prod.fst hm
    rwa [keysB] at h
  · intro hm
    have h := List.mem_map_of_mem Prod.fst hm
    rwa [keysS] at h

/-- Witness for C10: a pre-existing `gamemode=creative` line is preserved
for the default key `gamemode`. -/
theorem c10_configure_server_witness :
    lastVal (["gamemode=creative"].filterMap parseLineBedrock) "gamemode"
        = some "creative"
      ∧ ("gamemode", "survival") ∈ Bedrock.defaultConfig
      ∧ ("gamemode", "creative") ∈ Bedrock.configure_server (some ["gamemode=creative"]) := by
  refine ⟨by decide, by decide, ?_⟩
  exact (c10_configure_server (some ["gamemode=creative"]) none
      ["gamemode=creative"] "gamemode" "creative" "survival").2.2.2.1
    (by decide) (by decide)

end Launcher
